import Mathlib

/-!
Shallow embedding of the CoWriter frontend (src/co_writer/src/app/page.tsx).

The page is a React component; its state lives in `useState` hooks and its
event handlers are closures over that state.  Each handler is embedded here
as a pure function from the state it reads (and, for handlers that perform a
fetch, an explicit value describing the outcome of the HTTP request) to the
state it writes, together with the externally visible effects (alerts shown,
request bodies sent).  Machine-level concerns (wall-clock `Date` timestamps
on chat messages, React re-rendering) are outside the model; no claim
mentions them.
-/

namespace CoWriter

open scoped List

/-- Embeds the `ActionButton` interface of page.tsx:
`{ id: string; name: string; action: string; emoji: string }`. -/
structure ActionButton where
  id : String
  name : String
  action : String
  emoji : String
  deriving DecidableEq, Repr

/-- Embeds the `defaultActions` constant of page.tsx. -/
def defaultActions : List ActionButton :=
  [ { id := "1", name := "Expand",
      action := "Expand the text while maintaining the context", emoji := "✨" },
    { id := "2", name := "Shorten",
      action := "Make the text more concise", emoji := "✂️" },
    { id := "3", name := "Critique",
      action := "Provide feedback on the writing", emoji := "🎯" } ]

/-- Embeds `handleAddAction`: computes `newId = String(actions.length + 1)`
and appends a fresh default-named action with that id.
JavaScript `String(n)` on a non-negative integer is its decimal
representation, i.e. `toString` on `Nat`. -/
def handleAddAction (actions : List ActionButton) : List ActionButton :=
  actions ++
    [ { id := toString (actions.length + 1),
        name := "New Action",
        action := "Describe what this action should do...",
        emoji := "🔹" } ]

/-- Embeds the `Partial<ActionButton>` values actually passed to
`handleUpdateAction` by its callers (`SortableActionItem` sends one of
`{ name }`, `{ action }`, `{ emoji }`): each field either present or absent.
The `id` field is never part of an update sent by the UI. -/
structure ActionUpdate where
  name : Option String := none
  action : Option String := none
  emoji : Option String := none
  deriving DecidableEq, Repr

/-- The JavaScript object spread `{ ...a, ...updates }`: every key present in
`updates` overrides the corresponding field of `a`; absent keys leave it. -/
def applyUpdate (a : ActionButton) (u : ActionUpdate) : ActionButton :=
  { a with
    name := u.name.getD a.name
    action := u.action.getD a.action
    emoji := u.emoji.getD a.emoji }

/-- Embeds `handleUpdateAction`:
`setActions(actions.map(a => (a.id === id ? { ...a, ...updates } : a)))`. -/
def handleUpdateAction (actions : List ActionButton) (id : String)
    (u : ActionUpdate) : List ActionButton :=
  actions.map (fun a => if a.id = id then applyUpdate a u else a)

/-- Embeds `handleDeleteAction`:
`setActions(actions.filter(a => a.id !== id))`. -/
def handleDeleteAction (actions : List ActionButton) (id : String) :
    List ActionButton :=
  actions.filter (fun a => a.id ≠ id)

/-- JavaScript `Array.prototype.splice` start-index normalisation against an
array of length `len`: a negative index counts from the end (clamped at 0),
a non-negative one is clamped at `len`. -/
def jsSpliceStart (len : Nat) (i : Int) : Nat :=
  if i < 0 then ((len : Int) + i).toNat else min i.toNat len

/-- Models `arrayMove` from the @dnd-kit/sortable library (not repository
code), which page.tsx calls in `handleDragEnd`:

`const newArray = array.slice();`
`newArray.splice(to < 0 ? newArray.length + to : to, 0, newArray.splice(from, 1)[0]);`

The ternary on `to` is evaluated against the original length `n`; the inner
`splice(from, 1)` removes (at most) one element; the outer splice then
normalises its start index against the shortened array and inserts the
removed element there.  The one divergence from JavaScript: when the inner
splice removes nothing (only possible on an empty array, from which no drag
can originate), JavaScript would insert the value `undefined`; here nothing
is inserted. -/
def arrayMove {α : Type} (l : List α) (fro tgt : Int) : List α :=
  let n := l.length
  let toPre : Int := if tgt < 0 then (n : Int) + tgt else tgt
  let fIdx := jsSpliceStart n fro
  let removed := (l.drop fIdx).take 1
  let rest := l.take fIdx ++ l.drop (fIdx + 1)
  let tIdx := jsSpliceStart rest.length toPre
  rest.take tIdx ++ removed ++ rest.drop tIdx

/-- JavaScript `Array.prototype.findIndex` with an id-equality predicate:
the index of the first matching element, or -1. -/
def jsFindIndex (l : List ActionButton) (id : String) : Int :=
  match l.findIdx? (fun a => a.id = id) with
  | some i => (i : Int)
  | none => -1

/-- A @dnd-kit drag-end event as consumed by `handleDragEnd`: the dragged
item (`active.id`) and the drop target (`over`, which may be null). -/
structure DragEndEvent where
  activeId : String
  overId : Option String
  deriving DecidableEq, Repr

/-- JavaScript `String(over?.id)`: the id itself when `over` is present,
the string "undefined" when it is null. -/
def overIdString : Option String → String
  | some s => s
  | none => "undefined"

/-- Embeds `handleDragEnd`: when `active.id !== over?.id` (in particular
whenever `over` is null, since a string is never strictly equal to
`undefined`), look up both indices with `findIndex` and apply `arrayMove`;
otherwise leave the list untouched. -/
def handleDragEnd (ev : DragEndEvent) (items : List ActionButton) :
    List ActionButton :=
  if ev.overId = some ev.activeId then items
  else
    arrayMove items (jsFindIndex items ev.activeId)
      (jsFindIndex items (overIdString ev.overId))

/-- Models JavaScript `String.prototype.trim` as called throughout page.tsx
(`inputMessage.trim()`, `apiKey.trim()`, ...): strip leading and trailing
whitespace.  Whitespace is modelled by `Char.isWhitespace` (space, tab,
newline, carriage return), covering every input the claims quantify over. -/
def jsTrim (s : String) : String :=
  String.mk ((s.data.dropWhile Char.isWhitespace).reverse.dropWhile
    Char.isWhitespace).reverse

/-- Models JavaScript `String.prototype.toLowerCase` as called in
`handleActionClick` (`action.name.toLowerCase()`), on the ASCII range. -/
def jsToLower (s : String) : String :=
  String.mk (s.data.map Char.toLower)

/-- The two selectable providers, the discriminant of the `LLMConfig`
interface: `type: 'openai' | 'llama' | null` (null is `Option.none`). -/
inductive ProviderType where
  | openai
  | llama
  deriving DecidableEq, Repr

/-- Embeds the `LLMConfig` interface of page.tsx:
`{ type; apiKey?; host?; port? }`, optional keys as `Option`. -/
structure LLMConfig where
  type : Option ProviderType
  apiKey : Option String := none
  host : Option String := none
  port : Option String := none
  deriving DecidableEq, Repr

/-- The local state of `LLMConnectionModal` read by its `handleConnect`:
`selectedLLM`, `apiKey`, `host`, `port`. -/
structure ModalState where
  selectedLLM : ProviderType
  apiKey : String
  host : String
  port : String
  deriving DecidableEq, Repr

/-- What the modal's `handleConnect` does before any network activity:
either it stops with an inline validation error (no fetch, no config
change), or it hands a freshly built `LLMConfig` to `handleLLMConnect`. -/
inductive ConnectAttempt where
  | validationError (msg : String)
  | submit (cfg : LLMConfig)
  deriving DecidableEq, Repr

/-- Embeds `handleConnect` of `LLMConnectionModal`: reject an OpenAI
selection with a blank API key, reject a Llama selection with a blank host
or port, otherwise build the config object
`{ type: selectedLLM, ...(selectedLLM === 'openai' ? { apiKey } : { host, port }) }`
and call `handleLLMConnect` on it. -/
def handleConnect (s : ModalState) : ConnectAttempt :=
  if s.selectedLLM = .openai ∧ jsTrim s.apiKey = "" then
    .validationError "API key is required"
  else if s.selectedLLM = .llama ∧ (jsTrim s.host = "" ∨ jsTrim s.port = "") then
    .validationError "Host and port are required"
  else
    .submit
      (if s.selectedLLM = .openai then
        { type := some .openai, apiKey := some s.apiKey }
      else
        { type := some .llama, host := some s.host, port := some s.port })

/-- Outcome of the `POST /api/connect_llm` fetch inside `handleLLMConnect`:
either a parsed JSON reply carrying `success` (and possibly `message`), or a
thrown error (network failure / JSON parse failure) with its message. -/
inductive ConnectResp where
  | reply (success : Bool) (message : Option String)
  | thrown (message : String)
  deriving DecidableEq, Repr

/-- Embeds `handleLLMConnect`: on `data.success` store the submitted config;
otherwise throw `data.message || 'Failed to connect to LLM'`, which the
catch block alerts before resetting the stored config to `{ type: null }`.
A thrown fetch error takes the same catch path with its own message.
Returns the new stored `llmConfig` paired with the alert text, if any.
The handler never reads the previously stored config, so the result is the
same whatever was connected before. -/
def handleLLMConnect (config : LLMConfig) (resp : ConnectResp) :
    LLMConfig × Option String :=
  match resp with
  | .reply true _ => (config, none)
  | .reply false msg => ({ type := none }, some (msg.getD "Failed to connect to LLM"))
  | .thrown msg => ({ type := none }, some msg)

/-- Embeds the `Message` interface of page.tsx restricted to the fields the
claims speak about: `{ text, isUser }`.  The source also stores a wall-clock
`timestamp: Date`, which no claim mentions and which is outside the model. -/
structure Message where
  text : String
  isUser : Bool
  deriving DecidableEq, Repr

/-- The slice of page state `handleSendMessage` reads:
`inputMessage`, `llmConfig.type`, `isChatProcessing`, `messages`,
`editorContent`. -/
structure ChatState where
  messages : List Message
  inputMessage : String
  isChatProcessing : Bool
  editorContent : String
  llmType : Option ProviderType
  deriving DecidableEq, Repr

/-- One observable step of `handleSendMessage`, in program order: a
`setMessages` append, a `setInputMessage('')`, a `setIsChatProcessing`, or
issuing the `POST /api/chat` request with its body fields. -/
inductive ChatEvent where
  | appendUserMsg (text : String)
  | clearInput
  | setProcessing (b : Bool)
  | chatRequest (message : String) (context : Option String)
  | appendBotMsg (text : String)
  deriving DecidableEq, Repr

/-- Outcome of the `POST /api/chat` fetch: an OK response whose JSON has a
`text` field, a non-OK response (the code then throws), or a thrown
network/parse error. -/
inductive ChatResp where
  | ok (text : String)
  | httpError
  | netError
  deriving DecidableEq, Repr

/-- The fallback assistant text appended by the catch block of
`handleSendMessage`. -/
def chatFallback : String := "I\x27m sorry, I encountered an error. Please try again."

/-- The `context` field of the chat request body:
`editorContent ? \x60Current editor content: ${editorContent}\x60 : undefined`
(the empty string is falsy). -/
def chatContext (editorContent : String) : Option String :=
  if editorContent = "" then none
  else some ("Current editor content: " ++ editorContent)

/-- Embeds `handleSendMessage` as the ordered list of its observable steps.
The guard `if (!inputMessage.trim() || !llmConfig.type || isChatProcessing)
return;` produces the empty trace.  Otherwise: append the user message,
clear the input, raise the processing flag, issue the request; then append
either the reply text or the fixed fallback, and finally (in `finally`)
lower the processing flag. -/
def handleSendMessage (s : ChatState) (resp : ChatResp) : List ChatEvent :=
  if jsTrim s.inputMessage = "" ∨ s.llmType = none ∨ s.isChatProcessing = true then
    []
  else
    [ .appendUserMsg s.inputMessage, .clearInput, .setProcessing true,
      .chatRequest s.inputMessage (chatContext s.editorContent) ] ++
    (match resp with
     | .ok t => [ChatEvent.appendBotMsg t]
     | _ => [ChatEvent.appendBotMsg chatFallback]) ++
    [ .setProcessing false ]

/-- How each observable step acts on the chat state: the `setXxx` calls of
page.tsx (`setMessages(prev => [...prev, msg])` appends; user messages have
`isUser: true`, assistant ones `isUser: false`); the request itself does not
change frontend state. -/
def applyChatEvent (s : ChatState) : ChatEvent → ChatState
  | .appendUserMsg t => { s with messages := s.messages ++ [{ text := t, isUser := true }] }
  | .clearInput => { s with inputMessage := "" }
  | .setProcessing b => { s with isChatProcessing := b }
  | .chatRequest _ _ => s
  | .appendBotMsg t => { s with messages := s.messages ++ [{ text := t, isUser := false }] }

/-- The chat state after `handleSendMessage` runs to completion: the trace
folded over the starting state. -/
def runChat (s : ChatState) (resp : ChatResp) : ChatState :=
  (handleSendMessage s resp).foldl applyChatEvent s

/-- The slice of page state `handleActionClick` reads and writes. -/
structure PageState where
  actions : List ActionButton
  llmType : Option ProviderType
  aboutMe : String
  preferredStyle : String
  tone : String
  editorContent : String
  isProcessing : Bool
  deriving DecidableEq, Repr

/-- The JSON body of `POST /api/submit_action` as built in
`handleActionClick`. -/
structure SubmitActionBody where
  action : String
  action_description : String
  text : String
  about_me : String
  preferred_style : String
  tone : String
  deriving DecidableEq, Repr

/-- Outcome of the `POST /api/submit_action` fetch: an HTTP response (ok
flag, the parsed JSON's `text` and `detail` fields — the code reads `data`
before checking `response.ok`), or a thrown network/parse error with its
message. -/
inductive ActionResp where
  | http (ok : Bool) (text : String) (detail : Option String)
  | thrown (message : String)
  deriving DecidableEq, Repr

/-- What a run of `handleActionClick` leaves behind: the new page state, the
alert shown (if any), and the request body sent (if any). -/
structure ActionClickResult where
  state : PageState
  alert : Option String
  request : Option SubmitActionBody
  deriving DecidableEq, Repr

/-- Embeds `handleActionClick`.  Guard order as in the source: no connected
LLM alerts first and returns; blank editor content alerts next and returns;
neither early return touches any state.  Otherwise `isProcessing` is raised,
the body is sent, and: on an OK response the editor content is replaced by
`data.text`; on a non-OK response the code throws
`data.detail || 'Failed to process action'` which the catch block alerts; a
thrown fetch error is alerted with its own message.  `finally` lowers
`isProcessing`. -/
def handleActionClick (a : ActionButton) (s : PageState) (resp : ActionResp) :
    ActionClickResult :=
  if s.llmType = none then
    { state := s, alert := some "Please connect to an LLM first", request := none }
  else if jsTrim s.editorContent = "" then
    { state := s, alert := some "Please enter some text in the editor first",
      request := none }
  else
    let body : SubmitActionBody :=
      { action := jsToLower a.name, action_description := a.action,
        text := s.editorContent, about_me := s.aboutMe,
        preferred_style := s.preferredStyle, tone := s.tone }
    match resp with
    | .http true t _ =>
      { state := { s with editorContent := t, isProcessing := false },
        alert := none, request := some body }
    | .http false _ d =>
      { state := { s with isProcessing := false },
        alert := some (d.getD "Failed to process action"), request := some body }
    | .thrown msg =>
      { state := { s with isProcessing := false },
        alert := some msg, request := some body }

/-! Theorems -/

/-- C1: demonstration of the id-collision bug in `handleAddAction`.  After
deleting the action with id "1" from the default list, the remaining ids are
"2" and "3" and the list has length 2, so `handleAddAction` computes
`newId = String(2 + 1) = "3"` — an id already present — leaving the list
with ids ["2", "3", "3"].  A subsequent `handleDeleteAction` with id "3"
then removes two actions, not exactly one.  This refutes the claim that the
appended action's identifier differs from every existing identifier, on a
state reachable in two UI steps. -/
theorem addAction_duplicate_id :
    (handleAddAction (handleDeleteAction defaultActions "1")).map ActionButton.id
      = ["2", "3", "3"] ∧
    (handleDeleteAction (handleAddAction (handleDeleteAction defaultActions "1"))
      "3").map ActionButton.id = ["2"] := by
  decide

/-- Removing the element at position `fIdx` of a list and re-inserting it at
position `tIdx` of the remainder yields a permutation of the list (also when
either index is out of range, in which case nothing is moved). -/
theorem splice_reinsert_perm {α : Type} (l : List α) (fIdx tIdx : Nat) :
    ((l.take fIdx ++ l.drop (fIdx + 1)).take tIdx ++ (l.drop fIdx).take 1 ++
      (l.take fIdx ++ l.drop (fIdx + 1)).drop tIdx).Perm l := by
  rw [List.append_assoc]
  set rest := l.take fIdx ++ l.drop (fIdx + 1) with hrest
  calc (rest.take tIdx ++ ((l.drop fIdx).take 1 ++ rest.drop tIdx)).Perm
        ((l.drop fIdx).take 1 ++ (rest.take tIdx ++ rest.drop tIdx)) :=
        List.perm_append_comm_assoc _ _ _
    _ = (l.drop fIdx).take 1 ++ rest := by rw [List.take_append_drop]
    _ = (l.drop fIdx).take 1 ++ (l.take fIdx ++ l.drop (fIdx + 1)) := by rw [hrest]
    _ ~ l.take fIdx ++ ((l.drop fIdx).take 1 ++ l.drop (fIdx + 1)) :=
        List.perm_append_comm_assoc _ _ _
    _ = l.take fIdx ++ ((l.drop fIdx).take 1 ++ (l.drop fIdx).drop 1) := by
        rw [List.drop_drop, Nat.add_comm]
    _ = l.take fIdx ++ l.drop fIdx := by rw [List.take_append_drop]
    _ = l := List.take_append_drop _ _

/-- Whatever indices `arrayMove` is given, its result is a permutation of
its input. -/
theorem arrayMove_perm {α : Type} (l : List α) (fro tgt : Int) :
    (arrayMove l fro tgt).Perm l := by
  simp only [arrayMove]
  exact splice_reinsert_perm l _ _

/-- C2: the list produced by `handleDragEnd` is always a permutation of the
input list (same multiset of action buttons: none added, removed or
modified), and when the dragged id equals the drop-target id the list is
returned exactly unchanged. -/
theorem handleDragEnd_perm (ev : DragEndEvent) (items : List ActionButton) :
    (handleDragEnd ev items).Perm items ∧
    (ev.overId = some ev.activeId → handleDragEnd ev items = items) := by
  constructor
  · unfold handleDragEnd
    split
    · exact List.Perm.refl items
    · exact arrayMove_perm items _ _
  · intro h
    simp [handleDragEnd, h]

/-- C2 witness: dragging action "2" of the default list onto itself leaves
the list exactly unchanged. -/
theorem handleDragEnd_perm_witness :
    handleDragEnd { activeId := "2", overId := some "2" } defaultActions
      = defaultActions :=
  (handleDragEnd_perm { activeId := "2", overId := some "2" } defaultActions).2 rfl

/-- C10: `handleUpdateAction` preserves the length (hence the positions) of
the action list; at any position holding an action whose id differs from the
updated id the action is exactly unchanged; at a position holding the
matching id, the result keeps the id and replaces exactly the fields present
in the update, leaving absent fields at their old values. -/
theorem handleUpdateAction_frame (actions : List ActionButton) (id : String)
    (u : ActionUpdate) (i : Nat) (a : ActionButton)
    (ha : actions[i]? = some a) :
    (handleUpdateAction actions id u).length = actions.length ∧
    (a.id ≠ id → (handleUpdateAction actions id u)[i]? = some a) ∧
    (a.id = id → (handleUpdateAction actions id u)[i]? =
      some { id := a.id, name := u.name.getD a.name,
             action := u.action.getD a.action, emoji := u.emoji.getD a.emoji }) := by
  refine ⟨by simp [handleUpdateAction], ?_, ?_⟩
  · intro h
    simp [handleUpdateAction, List.getElem?_map, ha, h]
  · intro h
    simp [handleUpdateAction, List.getElem?_map, ha, h, applyUpdate]

/-- C10 witness: renaming the action with id "2" in the default list touches
exactly position 1, keeps its id, action text and emoji, and changes only
its name. -/
theorem handleUpdateAction_frame_witness :
    (handleUpdateAction defaultActions "2"
        { name := some "Renamed", action := none, emoji := none })[1]? =
      some { id := "2", name := "Renamed",
             action := "Make the text more concise", emoji := "✂️" } :=
  (handleUpdateAction_frame defaultActions "2"
      { name := some "Renamed", action := none, emoji := none } 1
      { id := "2", name := "Shorten",
        action := "Make the text more concise", emoji := "✂️" }
      (by decide)).2.2 rfl

/-- C3: the connection dialog rejects an OpenAI selection whose API key is
empty or whitespace-only, and a Llama selection whose host or port is empty
or whitespace-only, with the corresponding inline error message.  A
`ConnectAttempt.validationError` result is the early `return` before the
config object is built and before `handleLLMConnect` (hence the fetch) is
ever invoked, so no network request is issued and the stored `llmConfig` is
untouched. -/
theorem handleConnect_rejects_blank (s : ModalState) :
    (s.selectedLLM = .openai → jsTrim s.apiKey = "" →
      handleConnect s = .validationError "API key is required") ∧
    (s.selectedLLM = .llama → (jsTrim s.host = "" ∨ jsTrim s.port = "") →
      handleConnect s = .validationError "Host and port are required") := by
  constructor
  · intro h1 h2
    unfold handleConnect
    rw [if_pos ⟨h1, h2⟩]
  · intro h1 h2
    have hno : ¬(s.selectedLLM = .openai ∧ jsTrim s.apiKey = "") := by
      rintro ⟨h, -⟩
      rw [h1] at h
      cases h
    unfold handleConnect
    rw [if_neg hno, if_pos ⟨h1, h2⟩]

/-- C3 witness: connecting with OpenAI selected and a whitespace-only API
key yields exactly the inline validation error. -/
theorem handleConnect_rejects_blank_witness :
    handleConnect
        { selectedLLM := .openai, apiKey := "   ",
          host := "http://localhost", port := "8080" }
      = .validationError "API key is required" :=
  (handleConnect_rejects_blank
      { selectedLLM := .openai, apiKey := "   ",
        host := "http://localhost", port := "8080" }).1 rfl (by decide)

/-- C4: when no LLM is connected or the editor content is blank, a click on
any action button returns before `setIsProcessing(true)` and before the
fetch: the page state is returned exactly unchanged, no request body is
produced, and the alert is the connect prompt when no LLM is connected
(that guard runs first), otherwise the enter-text prompt. -/
theorem handleActionClick_precondition (a : ActionButton) (s : PageState)
    (resp : ActionResp)
    (h : jsTrim s.editorContent = "" ∨ s.llmType = none) :
    handleActionClick a s resp =
      { state := s,
        alert := some (if s.llmType = none then "Please connect to an LLM first"
                       else "Please enter some text in the editor first"),
        request := none } := by
  unfold handleActionClick
  by_cases hl : s.llmType = none
  · rw [if_pos hl, if_pos hl]
  · have he : jsTrim s.editorContent = "" := h.resolve_right hl
    rw [if_neg hl, if_pos he, if_neg hl]

/-- C4 witness: with no LLM connected, clicking the default Expand button
changes nothing, sends nothing, and alerts the connect prompt. -/
theorem handleActionClick_precondition_witness :
    handleActionClick
        { id := "1", name := "Expand",
          action := "Expand the text while maintaining the context", emoji := "✨" }
        { actions := defaultActions, llmType := none, aboutMe := "",
          preferredStyle := "Professional", tone := "Formal",
          editorContent := "Some draft", isProcessing := false }
        (.thrown "no request happens")
      = { state := { actions := defaultActions, llmType := none, aboutMe := "",
                     preferredStyle := "Professional", tone := "Formal",
                     editorContent := "Some draft", isProcessing := false },
          alert := some "Please connect to an LLM first",
          request := none } :=
  handleActionClick_precondition _ _ _ (Or.inr rfl)

/-- C5: when the chat input is blank, or no LLM is connected, or a chat
request is already in flight, `handleSendMessage` hits its guard and
returns: its trace is empty (in particular no `chatRequest` is issued) and
the resulting state — message list, input field, processing flag — is the
starting state. -/
theorem handleSendMessage_guard (s : ChatState) (resp : ChatResp)
    (h : jsTrim s.inputMessage = "" ∨ s.llmType = none ∨ s.isChatProcessing = true) :
    handleSendMessage s resp = [] ∧ runChat s resp = s := by
  have ht : handleSendMessage s resp = [] := by
    unfold handleSendMessage
    rw [if_pos h]
  refine ⟨ht, ?_⟩
  unfold runChat
  rw [ht]
  rfl

/-- C5 witness: a whitespace-only input with an LLM connected and no request
in flight produces the empty trace and leaves the state untouched. -/
theorem handleSendMessage_guard_witness :
    handleSendMessage
        { messages := [], inputMessage := "  ", isChatProcessing := false,
          editorContent := "", llmType := some .openai } .httpError = [] ∧
    runChat
        { messages := [], inputMessage := "  ", isChatProcessing := false,
          editorContent := "", llmType := some .openai } .httpError =
      { messages := [], inputMessage := "  ", isChatProcessing := false,
        editorContent := "", llmType := some .openai } :=
  handleSendMessage_guard _ _ (Or.inl (by decide))

/-- C6: on a chat send that passes the guard and whose request fails (non-OK
response or thrown error), the final message list is the original list plus
the optimistically appended user message followed by exactly one assistant
message (`isUser = false`) carrying the fixed apology text, and the
processing flag ends cleared by the `finally` block. -/
theorem handleSendMessage_failure_fallback (s : ChatState) (resp : ChatResp)
    (hguard : ¬(jsTrim s.inputMessage = "" ∨ s.llmType = none ∨
      s.isChatProcessing = true))
    (hfail : resp = .httpError ∨ resp = .netError) :
    (runChat s resp).messages =
      s.messages ++ [{ text := s.inputMessage, isUser := true },
                     { text := chatFallback, isUser := false }] ∧
    (runChat s resp).isChatProcessing = false := by
  have ht : handleSendMessage s resp =
      [ .appendUserMsg s.inputMessage, .clearInput, .setProcessing true,
        .chatRequest s.inputMessage (chatContext s.editorContent),
        .appendBotMsg chatFallback, .setProcessing false ] := by
    unfold handleSendMessage
    rw [if_neg hguard]
    rcases hfail with h | h <;> (rw [h]; rfl)
  unfold runChat
  rw [ht]
  simp [applyChatEvent]

/-- C6 witness: a failing send from a connected, idle state with input "hi"
ends with exactly the user message and the apology appended, and the flag
down. -/
theorem handleSendMessage_failure_fallback_witness :
    (runChat
        { messages := [], inputMessage := "hi", isChatProcessing := false,
          editorContent := "", llmType := some .openai } .netError).messages =
      [{ text := "hi", isUser := true },
       { text := chatFallback, isUser := false }] ∧
    (runChat
        { messages := [], inputMessage := "hi", isChatProcessing := false,
          editorContent := "", llmType := some .openai } .netError).isChatProcessing
      = false :=
  handleSendMessage_failure_fallback _ .netError (by decide) (Or.inr rfl)

/-- C7: `handleLLMConnect` stores the submitted config exactly when the
backend reply carries `success: true`; a reply with `success: false` and a
thrown request error both land in the catch block, which resets the stored
config to the unconnected `{ type: null }`.  The handler never reads the
previously stored config, so this holds whatever was connected before. -/
theorem handleLLMConnect_config (config : LLMConfig) (message : Option String)
    (msg : String) :
    (handleLLMConnect config (.reply true message)).1 = config ∧
    (handleLLMConnect config (.reply false message)).1 = { type := none } ∧
    (handleLLMConnect config (.thrown msg)).1 = { type := none } :=
  ⟨rfl, rfl, rfl⟩

/-- C8: when both preconditions hold (an LLM is connected and the trimmed
editor content is non-empty), `handleActionClick` leaves the actions list
and the profile fields (about-me, style, tone) unchanged in every case; on
an OK response it replaces the editor content with the response's `text`
field and alerts nothing; on a non-OK response it keeps the editor content
and alerts `detail` (or the generic message when `detail` is absent); on a
thrown request error it keeps the editor content and alerts the error's own
message. -/
theorem handleActionClick_result (a : ActionButton) (s : PageState)
    (resp : ActionResp)
    (hc : ¬s.llmType = none) (he : ¬jsTrim s.editorContent = "") :
    (handleActionClick a s resp).state.actions = s.actions ∧
    (handleActionClick a s resp).state.aboutMe = s.aboutMe ∧
    (handleActionClick a s resp).state.preferredStyle = s.preferredStyle ∧
    (handleActionClick a s resp).state.tone = s.tone ∧
    (∀ t d, resp = .http true t d →
      (handleActionClick a s resp).state.editorContent = t ∧
      (handleActionClick a s resp).alert = none) ∧
    (∀ t d, resp = .http false t d →
      (handleActionClick a s resp).state.editorContent = s.editorContent ∧
      (handleActionClick a s resp).alert = some (d.getD "Failed to process action")) ∧
    (∀ m, resp = .thrown m →
      (handleActionClick a s resp).state.editorContent = s.editorContent ∧
      (handleActionClick a s resp).alert = some m) := by
  unfold handleActionClick
  rw [if_neg hc, if_neg he]
  rcases resp with ⟨ok, t, d⟩ | m
  · cases ok <;> simp
  · simp

/-- C8 witness: a successful Expand on a connected state with content
"Hello" replaces the editor content by the returned text and alerts
nothing. -/
theorem handleActionClick_result_witness :
    (handleActionClick
        { id := "1", name := "Expand",
          action := "Expand the text while maintaining the context", emoji := "✨" }
        { actions := defaultActions, llmType := some .openai, aboutMe := "",
          preferredStyle := "Professional", tone := "Formal",
          editorContent := "Hello", isProcessing := false }
        (.http true "Hello, world" none)).state.editorContent = "Hello, world" ∧
    (handleActionClick
        { id := "1", name := "Expand",
          action := "Expand the text while maintaining the context", emoji := "✨" }
        { actions := defaultActions, llmType := some .openai, aboutMe := "",
          preferredStyle := "Professional", tone := "Formal",
          editorContent := "Hello", isProcessing := false }
        (.http true "Hello, world" none)).alert = none :=
  (handleActionClick_result _ _ _ (by decide) (by decide)).2.2.2.2.1
    "Hello, world" none rfl

/-- C9: a send that passes the guard appends the user message (carrying the
input text) and raises the processing flag strictly before the request is
issued — the first four steps of the trace are, in order, the user-message
append, the input clear, `setIsChatProcessing(true)`, and only then the
`POST /api/chat`; and any invocation while the processing flag is already
set produces the empty trace, so this control has at most one request in
flight at a time. -/
theorem handleSendMessage_ordering (s : ChatState) (resp : ChatResp) :
    (s.isChatProcessing = true → handleSendMessage s resp = []) ∧
    (¬(jsTrim s.inputMessage = "" ∨ s.llmType = none ∨
        s.isChatProcessing = true) →
      (handleSendMessage s resp).take 4 =
        [ .appendUserMsg s.inputMessage, .clearInput, .setProcessing true,
          .chatRequest s.inputMessage (chatContext s.editorContent) ]) := by
  constructor
  · intro h
    unfold handleSendMessage
    rw [if_pos (Or.inr (Or.inr h))]
  · intro h
    unfold handleSendMessage
    rw [if_neg h]
    rcases resp with t | _ | _ <;> rfl

/-- C9 witness: with the processing flag already set, a further send is a
no-op; from an idle connected state, the request is preceded in the trace by
the user-message append and the flag raise. -/
theorem handleSendMessage_ordering_witness :
    handleSendMessage
        { messages := [], inputMessage := "hi", isChatProcessing := true,
          editorContent := "", llmType := some .openai } .httpError = [] ∧
    (handleSendMessage
        { messages := [], inputMessage := "hi", isChatProcessing := false,
          editorContent := "draft", llmType := some .openai } .httpError).take 4 =
      [ .appendUserMsg "hi", .clearInput, .setProcessing true,
        .chatRequest "hi" (chatContext "draft") ] :=
  ⟨(handleSendMessage_ordering
      { messages := [], inputMessage := "hi", isChatProcessing := true,
        editorContent := "", llmType := some .openai } .httpError).1 rfl,
   (handleSendMessage_ordering
      { messages := [], inputMessage := "hi", isChatProcessing := false,
        editorContent := "draft", llmType := some .openai } .httpError).2
     (by decide)⟩

end CoWriter
